import Mathlib

/-!
# Urban Mobility Explorer — verification of the dashboard scripts

Shallow embedding of the two browser dashboard scripts of the repository:
* `PartA` models `src/unnamed/part_000` (offset-based pagination, filter state,
  an `isLoading` re-entrancy guard, a hand-rolled bar-chart renderer and the
  `formatLabel` humanizer).
* `ScriptJs` models `src/frontend/script.js` (the `fetchData` wrapper with its
  catch-all, the per-widget loaders guarded by `data && data.success`, and the
  `initDashboard` parallel fan-out).

Strings manipulated character-by-character (the `formatLabel` regex pipeline)
are modelled as lists of UTF-16 code units (`List Nat`); JavaScript numbers
used for chart arithmetic are modelled as `ℚ`, page counters as `Int`.
Network interaction is modelled by passing each `await fetch`/`json()` pair an
explicit outcome value: either the parsed payload or a thrown failure.
-/

namespace PartA

/-! ## `formatLabel` (src/unnamed/part_000, lines 101–103)

`label.replace(/_/g, ' ').replace(/\b\w/g, l => l.toUpperCase())`.

A `\w` (word) character is `[A-Za-z0-9_]`; `\b\w` matches a word character at
the start of a run of word characters.  Only matched (hence ASCII) characters
are passed to `toUpperCase`, so the single-character uppercasing is the ASCII
one. Code units: `'_' = 95`, `' ' = 32`, digits `48–57`, `A–Z = 65–90`,
`a–z = 97–122`. -/

def isWordChar (c : Nat) : Bool :=
  decide ((48 ≤ c ∧ c ≤ 57) ∨ (65 ≤ c ∧ c ≤ 90) ∨ (97 ≤ c ∧ c ≤ 122) ∨ c = 95)

/-- ASCII single-character `toUpperCase`, the case relevant for `\b\w` matches. -/
def jsToUpper (c : Nat) : Nat :=
  if 97 ≤ c ∧ c ≤ 122 then c - 32 else c

/-- `label.replace(/_/g, ' ')`. -/
def replaceUnderscores (l : List Nat) : List Nat :=
  l.map fun c => if c = 95 then 32 else c

/-- `replace(/\b\w/g, l => l.toUpperCase())`: uppercase every word character
that is not preceded by a word character.  `prevWord` records whether the
previous character of the input was a word character. -/
def capitalizeFrom (prevWord : Bool) : List Nat → List Nat
  | [] => []
  | c :: cs =>
      (if !prevWord && isWordChar c then jsToUpper c else c) ::
        capitalizeFrom (isWordChar c) cs

def formatLabel (l : List Nat) : List Nat :=
  capitalizeFrom false (replaceUnderscores l)

/-! ## `createBarChart` (src/unnamed/part_000, lines 71–99)

The renderer receives the raw rows and two key names; we model a row already
projected to its label and numeric value.  `data` may be absent
(`!data`, e.g. a missing payload field) or empty.  Division is modelled by a
checked operator returning `none` on a zero divisor, so that "never divides by
zero" is a provable statement about the renderer. -/

structure BarItem where
  label : List Nat
  value : ℚ
deriving DecidableEq

/-- One rendered bar: `bar.style.height` percentage, the humanized label text
and the numeric value shown above the bar. -/
structure Bar where
  heightPercent : ℚ
  labelText : List Nat
  valueNum : ℚ
deriving DecidableEq

inductive ChartOutput where
  | noData
  | bars (rendered : List Bar)
deriving DecidableEq

/-- Division that refuses a zero divisor (used to show the renderer never
divides by zero). -/
def divQ (a b : ℚ) : Option ℚ :=
  if b = 0 then none else some (a / b)

/-- `Math.max(...data.map(d => d[valueKey]))` over the non-empty series
`d :: ds`. -/
def chartMaxValue (d : BarItem) (ds : List BarItem) : ℚ :=
  (ds.map (·.value)).foldl max d.value

/-- Body of the `forEach`: `heightPercent = maxValue > 0 ? (v / maxValue) * 100 : 0;
bar.style.height = Math.max(heightPercent, 1) + '%'`. -/
def barRender (maxValue : ℚ) (item : BarItem) : Option Bar :=
  (if 0 < maxValue then (divQ item.value maxValue).map (· * 100) else some 0).map
    fun heightPercent =>
      { heightPercent := max heightPercent 1
        labelText := formatLabel item.label
        valueNum := item.value }

def renderBars (maxValue : ℚ) : List BarItem → Option (List Bar)
  | [] => some []
  | i :: is =>
      match barRender maxValue i, renderBars maxValue is with
      | some b, some bs => some (b :: bs)
      | _, _ => none

def createBarChart (data : Option (List BarItem)) : Option ChartOutput :=
  match data with
  | none => some .noData
  | some [] => some .noData
  | some (d :: ds) => (renderBars (chartMaxValue d ds) (d :: ds)).map .bars

/-- Total form of `barRender` (the renderer never actually fails; see
`barRender_eq`). -/
def barOf (maxValue : ℚ) (item : BarItem) : Bar :=
  { heightPercent := max (if 0 < maxValue then item.value / maxValue * 100 else 0) 1
    labelText := formatLabel item.label
    valueNum := item.value }

/-! ## View state and the trip table (src/unnamed/part_000, lines 2–5, 105–243)

`currentPage`, `itemsPerPage`, `currentFilters`, `isLoading` are the module
globals; the trip table, the prev/next buttons and the two flags form the UI
state threaded through each handler.  Each `loadTrips` run is given the
outcome of its `fetch`/`json()` pair. -/

def itemsPerPage : Nat := 50

structure Trip where
  id : Int
  pickup_datetime : String
  trip_duration_minutes : ℚ
  trip_distance_miles : ℚ
  avg_speed_mph : ℚ
  passenger_count : Int
  time_of_day : Option String
  speed_category : Option String
deriving DecidableEq

structure ViewState where
  currentPage : Int
  currentFilters : List (String × String)
  isLoading : Bool
deriving DecidableEq

structure ButtonState where
  prevDisabled : Bool
  nextDisabled : Bool
deriving DecidableEq

inductive TableView where
  | loading
  | noTrips
  | table (trips : List Trip)
  | error
deriving DecidableEq

structure UIState where
  view : ViewState
  buttons : ButtonState
  table : TableView
deriving DecidableEq

/-- Outcome of one `await fetch(...)`/`await response.json()` pair: the parsed
rows, or a thrown network/parse error. -/
inductive FetchOutcome where
  | success (trips : List Trip)
  | failure
deriving DecidableEq

/-- `new URLSearchParams({ limit: itemsPerPage, offset: offset, ...currentFilters })`
with `offset = (currentPage - 1) * itemsPerPage` (lines 118–123). -/
def tripParams (v : ViewState) : List (String × String) :=
  ("limit", toString itemsPerPage) ::
    ("offset", toString ((v.currentPage - 1) * (itemsPerPage : Int))) ::
    v.currentFilters

/-- `loadTrips` (lines 105–179).  Returns the new UI state and the list of
trip fetches issued (empty when the `isLoading` guard returns early). -/
def loadTrips (u : UIState) (o : FetchOutcome) : UIState × List (List (String × String)) :=
  if u.view.isLoading then (u, [])
  else
    match o with
    | .failure =>
        ({ view := { u.view with isLoading := false }
           buttons := { prevDisabled := false, nextDisabled := false }
           table := .error }, [tripParams u.view])
    | .success trips =>
        if trips.length = 0 then
          ({ view := { u.view with isLoading := false }
             buttons := { prevDisabled := decide (u.view.currentPage ≤ 1), nextDisabled := true }
             table := .noTrips }, [tripParams u.view])
        else
          ({ view := { u.view with isLoading := false }
             buttons := { prevDisabled := decide (u.view.currentPage ≤ 1)
                          nextDisabled := decide (trips.length < itemsPerPage) }
             table := .table trips }, [tripParams u.view])

/-- `nextPage` (lines 231–236). -/
def nextPage (u : UIState) (o : FetchOutcome) : UIState × List (List (String × String)) :=
  if !u.view.isLoading then
    loadTrips { u with view := { u.view with currentPage := u.view.currentPage + 1 } } o
  else (u, [])

/-- `previousPage` (lines 238–243). -/
def previousPage (u : UIState) (o : FetchOutcome) : UIState × List (List (String × String)) :=
  if 1 < u.view.currentPage ∧ u.view.isLoading = false then
    loadTrips { u with view := { u.view with currentPage := u.view.currentPage - 1 } } o
  else (u, [])

/-- Values of the four filter inputs at the time `applyFilters` runs; the empty
string is the falsy "no selection" value. -/
structure FilterInputs where
  timeOfDay : String
  speedCategory : String
  minDistance : String
  maxDistance : String
deriving DecidableEq

/-- Lines 197–209: `currentFilters = {}` then one `if (value) currentFilters.key = value`
per input, in source order. -/
def buildFilters (i : FilterInputs) : List (String × String) :=
  (if i.timeOfDay ≠ "" then [("time_of_day", i.timeOfDay)] else []) ++
    (if i.speedCategory ≠ "" then [("speed_category", i.speedCategory)] else []) ++
    (if i.minDistance ≠ "" then [("min_distance", i.minDistance)] else []) ++
    (if i.maxDistance ≠ "" then [("max_distance", i.maxDistance)] else [])

/-- `applyFilters` (lines 190–219). -/
def applyFilters (i : FilterInputs) (u : UIState) (o : FetchOutcome) :
    UIState × List (List (String × String)) :=
  if u.view.isLoading then (u, [])
  else
    loadTrips
      { u with view := { currentPage := 1, currentFilters := buildFilters i
                         isLoading := u.view.isLoading } } o

/-- `resetFilters` (lines 221–229).  Note: unlike the other handlers it has no
`isLoading` guard of its own, only the guard inside `loadTrips`. -/
def resetFilters (u : UIState) (o : FetchOutcome) : UIState × List (List (String × String)) :=
  loadTrips
    { u with view := { currentPage := 1, currentFilters := []
                       isLoading := u.view.isLoading } } o

/-- Module-load values of the globals (lines 2–5). -/
def initialView : ViewState :=
  { currentPage := 1, currentFilters := [], isLoading := false }

def initialUI : UIState :=
  { view := initialView
    buttons := { prevDisabled := false, nextDisabled := false }
    table := .loading }

/-- One user-triggered handler invocation, with the outcome its fetch (if any)
would have. -/
inductive Action where
  | loadAct (o : FetchOutcome)
  | nextAct (o : FetchOutcome)
  | prevAct (o : FetchOutcome)
  | applyAct (i : FilterInputs) (o : FetchOutcome)
  | resetAct (o : FetchOutcome)

def step (u : UIState) : Action → UIState
  | .loadAct o => (loadTrips u o).1
  | .nextAct o => (nextPage u o).1
  | .prevAct o => (previousPage u o).1
  | .applyAct i o => (applyFilters i u o).1
  | .resetAct o => (resetFilters u o).1

def run (acts : List Action) : UIState :=
  acts.foldl step initialUI

/-! ## `loadCharts` / `loadTimeChart` / `loadSpeedChart` (lines 28–69) -/

inductive WidgetView where
  | chart (c : ChartOutput)
  | failed
deriving DecidableEq

/-- `loadTimeChart` (lines 45–56): on success renders
`createBarChart(data.by_time_of_day, ...)`, on a thrown fetch/parse error
writes the "Failed to load" placeholder. -/
def loadTimeChart (r : Option (Option (List BarItem))) : Option WidgetView :=
  match r with
  | none => some .failed
  | some series => (createBarChart series).map .chart

/-- `loadSpeedChart` (lines 58–69), same shape over `data.speed_distribution`. -/
def loadSpeedChartA (r : Option (Option (List BarItem))) : Option WidgetView :=
  match r with
  | none => some .failed
  | some series => (createBarChart series).map .chart

/-- `loadCharts` (lines 28–43): `isLoading` guard, then both charts in
parallel; each chart outcome is `none` when that fetch threw. -/
def loadCharts (isLoading : Bool) (t s : Option (Option (List BarItem))) :
    Option (Option WidgetView × Option WidgetView) :=
  if isLoading then none else some (loadTimeChart t, loadSpeedChartA s)

end PartA

namespace ScriptJs

/-! ## `fetchData` and the loaders (src/frontend/script.js) -/

/-- Outcome of `fetch` + `response.json()` for one endpoint: the parsed
payload, or a thrown network/non-JSON error. -/
inductive FetchResult (α : Type) where
  | ok (data : α)
  | networkError
deriving DecidableEq

/-- `fetchData` (lines 17–27): returns the parsed payload, or on a thrown
error alerts and returns `null`.  First component is the returned value,
second records whether the alert fired. -/
def fetchData {α : Type} (r : FetchResult α) : Option α × Bool :=
  match r with
  | .ok d => (some d, false)
  | .networkError => (none, true)

/-- What one loader leaves behind: the payload it rendered into its own DOM
region (`none` = nothing rendered) and whether an alert was raised. -/
structure Render (α : Type) where
  rendered : Option α
  alerted : Bool
deriving DecidableEq

structure StatsData where
  total_trips : Int
  avg_duration_minutes : ℚ
  avg_speed_kmh : ℚ
  most_common_passenger_count : Int
deriving DecidableEq

structure StatsResponse where
  success : Bool
  stats : StatsData
deriving DecidableEq

/-- `loadStats` (lines 30–45): renders the four tiles only under
`data && data.success`. -/
def loadStats (r : FetchResult StatsResponse) : Render StatsData :=
  match fetchData r with
  | (some d, a) => if d.success then ⟨some d.stats, a⟩ else ⟨none, a⟩
  | (none, a) => ⟨none, a⟩

/-- The `pickup_hour` → `"12 AM"`/`"3 PM"` label used by the hourly and speed
charts and the insights (lines 54–60 and analogues). -/
def hourLabel (hour : Int) : String :=
  if hour = 0 then "12 AM"
  else if hour < 12 then toString hour ++ " AM"
  else if hour = 12 then "12 PM"
  else toString (hour - 12) ++ " PM"

structure HourCount where
  pickup_hour : Int
  trip_count : Int
deriving DecidableEq

structure HourlyResponse where
  success : Bool
  hours : List HourCount
deriving DecidableEq

/-- Chart payload of `loadHourlyChart`: labels and counts arrays. -/
def hourlyChartData (hs : List HourCount) : List String × List Int :=
  (hs.map fun h => hourLabel h.pickup_hour, hs.map (·.trip_count))

/-- `loadHourlyChart` (lines 48–110). -/
def loadHourlyChart (r : FetchResult HourlyResponse) : Render (List String × List Int) :=
  match fetchData r with
  | (some d, a) => if d.success then ⟨some (hourlyChartData d.hours), a⟩ else ⟨none, a⟩
  | (none, a) => ⟨none, a⟩

structure DayStat where
  day_name : String
  trip_count : Int
deriving DecidableEq

structure DailyResponse where
  success : Bool
  stats : List DayStat
deriving DecidableEq

/-- `loadDailyChart` (lines 113–163). -/
def loadDailyChart (r : FetchResult DailyResponse) : Render (List String × List Int) :=
  match fetchData r with
  | (some d, a) =>
      if d.success then ⟨some (d.stats.map (·.day_name), d.stats.map (·.trip_count)), a⟩
      else ⟨none, a⟩
  | (none, a) => ⟨none, a⟩

structure SpeedStat where
  pickup_hour : Int
  avg_speed : ℚ
deriving DecidableEq

structure SpeedResponse where
  success : Bool
  speeds : List SpeedStat
deriving DecidableEq

/-- `loadSpeedChart` (lines 166–228); values pass through `toFixed(2)` which we
keep as the numeric value. -/
def loadSpeedChart (r : FetchResult SpeedResponse) : Render (List String × List ℚ) :=
  match fetchData r with
  | (some d, a) =>
      if d.success then
        ⟨some (d.speeds.map fun s => hourLabel s.pickup_hour, d.speeds.map (·.avg_speed)), a⟩
      else ⟨none, a⟩
  | (none, a) => ⟨none, a⟩

structure DurationBucket where
  duration_range : String
  trip_count : Int
deriving DecidableEq

structure DurationResponse where
  success : Bool
  distribution : List DurationBucket
deriving DecidableEq

/-- `loadDurationChart` (lines 231–274). -/
def loadDurationChart (r : FetchResult DurationResponse) : Render (List String × List Int) :=
  match fetchData r with
  | (some d, a) =>
      if d.success then
        ⟨some (d.distribution.map (·.duration_range), d.distribution.map (·.trip_count)), a⟩
      else ⟨none, a⟩
  | (none, a) => ⟨none, a⟩

structure TripB where
  trip_id : Int
  pickup_datetime : String
  trip_duration : ℚ
  trip_speed_kmh : ℚ
  passenger_count : Int
  distance_category : String
deriving DecidableEq

structure TripsResponse where
  success : Bool
  trips : List TripB
deriving DecidableEq

/-- Filter values handed to `loadTrips` (lines 401–410); the empty string is
the falsy "absent" value of `{}`. -/
structure TripFilters where
  hour : String
  day : String
  category : String
deriving DecidableEq

/-- Query-string construction of `loadTrips` (lines 278–282). -/
def tripsQuery (f : TripFilters) : String :=
  "?limit=500" ++
    (if f.hour ≠ "" then "&hour=" ++ f.hour else "") ++
    (if f.day ≠ "" then "&day=" ++ f.day else "") ++
    (if f.category ≠ "" then "&category=" ++ f.category else "")

/-- `loadTrips` (lines 277–315): table body rows rendered under
`data && data.success`. -/
def loadTrips (r : FetchResult TripsResponse) : Render (List TripB) :=
  match fetchData r with
  | (some d, a) => if d.success then ⟨some d.trips, a⟩ else ⟨none, a⟩
  | (none, a) => ⟨none, a⟩

/-- Fastest/slowest scan of `generateInsights` (lines 344–350). -/
def fastSlow (s0 : SpeedStat) (rest : List SpeedStat) : SpeedStat × SpeedStat :=
  rest.foldl
    (fun fs s =>
      (if fs.1.avg_speed < s.avg_speed then s else fs.1,
       if s.avg_speed < fs.2.avg_speed then s else fs.2))
    (s0, s0)

/-- Busiest/quietest scan of `generateInsights` (lines 384–390). -/
def busyQuiet (s0 : DayStat) (rest : List DayStat) : DayStat × DayStat :=
  rest.foldl
    (fun bq s =>
      (if bq.1.trip_count < s.trip_count then s else bq.1,
       if s.trip_count < bq.2.trip_count then s else bq.2))
    (s0, s0)

/-- Structured content of the three insight paragraphs. -/
structure InsightsRender where
  peak : Option HourCount
  speedExtremes : Option (SpeedStat × SpeedStat)
  weekly : Option (DayStat × DayStat)
deriving DecidableEq

/-- `generateInsights` (lines 318–398).  A `success: true` payload with an
empty array makes the JavaScript dereference `undefined` (`hours[0].pickup_hour`
etc.) and throw, modelled by `Except.error`. -/
def generateInsights (h : FetchResult HourlyResponse) (s : FetchResult SpeedResponse)
    (d : FetchResult DailyResponse) : Except Unit InsightsRender := do
  let peak ←
    match fetchData h with
    | (some r, _) =>
        if r.success then
          match r.hours with
          | [] => Except.error ()
          | a :: _ => Except.ok (some a)
        else Except.ok none
    | (none, _) => Except.ok none
  let ext ←
    match fetchData s with
    | (some r, _) =>
        if r.success then
          match r.speeds with
          | [] => Except.error ()
          | a :: rest => Except.ok (some (fastSlow a rest))
        else Except.ok none
    | (none, _) => Except.ok none
  let wk ←
    match fetchData d with
    | (some r, _) =>
        if r.success then
          match r.stats with
          | [] => Except.error ()
          | a :: rest => Except.ok (some (busyQuiet a rest))
        else Except.ok none
    | (none, _) => Except.ok none
  return { peak := peak, speedExtremes := ext, weekly := wk }

/-- The nine independent fetch outcomes consumed by `initDashboard`'s
`Promise.all` fan-out (`generateInsights` issues its own three fetches). -/
structure DashboardOutcomes where
  stats : FetchResult StatsResponse
  hourly : FetchResult HourlyResponse
  daily : FetchResult DailyResponse
  speed : FetchResult SpeedResponse
  duration : FetchResult DurationResponse
  trips : FetchResult TripsResponse
  insightsHourly : FetchResult HourlyResponse
  insightsSpeed : FetchResult SpeedResponse
  insightsDaily : FetchResult DailyResponse

structure DashboardRender where
  stats : Render StatsData
  hourly : Render (List String × List Int)
  daily : Render (List String × List Int)
  speed : Render (List String × List ℚ)
  duration : Render (List String × List Int)
  trips : Render (List TripB)
  insights : Except Unit InsightsRender

/-- `initDashboard` (lines 422–446): all loaders run under one `Promise.all`;
each writes only its own DOM region, so the joint render is the per-loader
renders side by side. -/
def initDashboard (o : DashboardOutcomes) : DashboardRender :=
  { stats := loadStats o.stats
    hourly := loadHourlyChart o.hourly
    daily := loadDailyChart o.daily
    speed := loadSpeedChart o.speed
    duration := loadDurationChart o.duration
    trips := loadTrips o.trips
    insights := generateInsights o.insightsHourly o.insightsSpeed o.insightsDaily }

end ScriptJs

namespace PartA

/-! ## Lemmas about `formatLabel` -/

theorem isWordChar_jsToUpper (c : Nat) : isWordChar (jsToUpper c) = isWordChar c := by
  simp only [isWordChar, jsToUpper]
  split
  · simp only [decide_eq_decide]
    omega
  · rfl

theorem jsToUpper_jsToUpper (c : Nat) : jsToUpper (jsToUpper c) = jsToUpper c := by
  by_cases h : 97 ≤ c ∧ c ≤ 122
  · simp only [jsToUpper, if_pos h]
    rw [if_neg (by omega)]
  · simp only [jsToUpper]
    rw [if_neg h, if_neg h]

theorem jsToUpper_ne_underscore (c : Nat) (h : c ≠ 95) : jsToUpper c ≠ 95 := by
  unfold jsToUpper
  split <;> omega

theorem capHead_idem (b : Bool) (c : Nat) :
    (if !b && isWordChar c then
       jsToUpper (if !b && isWordChar c then jsToUpper c else c)
     else (if !b && isWordChar c then jsToUpper c else c))
    = (if !b && isWordChar c then jsToUpper c else c) := by
  by_cases h : (!b && isWordChar c) = true
  · simp only [if_pos h]
    exact jsToUpper_jsToUpper c
  · simp only [if_neg h]

theorem capitalizeFrom_idem (b : Bool) (l : List Nat) :
    capitalizeFrom b (capitalizeFrom b l) = capitalizeFrom b l := by
  induction l generalizing b with
  | nil => rfl
  | cons c cs ih =>
      simp only [capitalizeFrom]
      have hw : isWordChar (if !b && isWordChar c then jsToUpper c else c) = isWordChar c := by
        split
        · exact isWordChar_jsToUpper c
        · rfl
      rw [hw, capHead_idem b c]
      exact congrArg _ (ih (isWordChar c))

theorem replaceUnderscores_eq_self (l : List Nat) (h : ∀ x ∈ l, x ≠ 95) :
    replaceUnderscores l = l := by
  induction l with
  | nil => rfl
  | cons c cs ih =>
      simp only [List.forall_mem_cons] at h
      simp only [replaceUnderscores, List.map_cons]
      rw [if_neg h.1]
      exact congrArg _ (ih h.2)

theorem capitalizeFrom_ne_underscore (b : Bool) (l : List Nat) (h : ∀ x ∈ l, x ≠ 95) :
    ∀ x ∈ capitalizeFrom b l, x ≠ 95 := by
  induction l generalizing b with
  | nil => simp [capitalizeFrom]
  | cons c cs ih =>
      simp only [List.forall_mem_cons] at h
      simp only [capitalizeFrom, List.forall_mem_cons]
      refine ⟨?_, ih (isWordChar c) h.2⟩
      split
      · exact jsToUpper_ne_underscore c h.1
      · exact h.1

theorem replaceUnderscores_ne_underscore (l : List Nat) :
    ∀ x ∈ replaceUnderscores l, x ≠ 95 := by
  intro x hx
  simp only [replaceUnderscores, List.mem_map] at hx
  obtain ⟨c, _, rfl⟩ := hx
  split <;> omega

theorem formatLabel_ne_underscore (l : List Nat) : ∀ x ∈ formatLabel l, x ≠ 95 :=
  capitalizeFrom_ne_underscore false _ (replaceUnderscores_ne_underscore l)

/-! ## Lemmas about `loadTrips` and the view-state machine -/

theorem loadTrips_currentPage (u : UIState) (o : FetchOutcome) :
    (loadTrips u o).1.view.currentPage = u.view.currentPage := by
  unfold loadTrips
  split
  · rfl
  · cases o with
    | failure => rfl
    | success trips =>
        dsimp only
        split <;> rfl

theorem loadTrips_currentFilters (u : UIState) (o : FetchOutcome) :
    (loadTrips u o).1.view.currentFilters = u.view.currentFilters := by
  unfold loadTrips
  split
  · rfl
  · cases o with
    | failure => rfl
    | success trips =>
        dsimp only
        split <;> rfl

theorem loadTrips_not_loading (u : UIState) (o : FetchOutcome)
    (h : u.view.isLoading = false) :
    (loadTrips u o).1.view.isLoading = false := by
  unfold loadTrips
  rw [if_neg (by rw [h]; exact Bool.false_ne_true)]
  cases o with
  | failure => rfl
  | success trips =>
      dsimp only
      split <;> rfl

theorem loadTrips_guard (u : UIState) (o : FetchOutcome) (h : u.view.isLoading = true) :
    loadTrips u o = (u, []) := by
  unfold loadTrips
  rw [if_pos h]

theorem loadTrips_requests (u : UIState) (o : FetchOutcome)
    (h : u.view.isLoading = false) :
    (loadTrips u o).2 = [tripParams u.view] := by
  unfold loadTrips
  rw [if_neg (by rw [h]; exact Bool.false_ne_true)]
  cases o with
  | failure => rfl
  | success trips =>
      dsimp only
      split <;> rfl

theorem loadTrips_success_buttons (u : UIState) (trips : List Trip)
    (h : u.view.isLoading = false) :
    (loadTrips u (.success trips)).1.buttons =
      { prevDisabled := decide (u.view.currentPage ≤ 1)
        nextDisabled := decide (trips.length < itemsPerPage) } := by
  unfold loadTrips
  rw [if_neg (by rw [h]; exact Bool.false_ne_true)]
  dsimp only
  by_cases h0 : trips.length = 0
  · rw [if_pos h0, h0]
    rfl
  · rw [if_neg h0]

theorem loadTrips_failure_buttons (u : UIState) (h : u.view.isLoading = false) :
    (loadTrips u .failure).1.buttons =
      { prevDisabled := false, nextDisabled := false } := by
  unfold loadTrips
  rw [if_neg (by rw [h]; exact Bool.false_ne_true)]

theorem step_page_ge_one (u : UIState) (a : Action) (h : 1 ≤ u.view.currentPage) :
    1 ≤ (step u a).view.currentPage := by
  cases a with
  | loadAct o =>
      show 1 ≤ (loadTrips u o).1.view.currentPage
      rw [loadTrips_currentPage]
      exact h
  | nextAct o =>
      show 1 ≤ (nextPage u o).1.view.currentPage
      unfold nextPage
      split
      · rw [loadTrips_currentPage]
        dsimp only
        omega
      · exact h
  | prevAct o =>
      show 1 ≤ (previousPage u o).1.view.currentPage
      unfold previousPage
      split
      · rw [loadTrips_currentPage]
        dsimp only
        omega
      · exact h
  | applyAct i o =>
      show 1 ≤ (applyFilters i u o).1.view.currentPage
      unfold applyFilters
      split
      · exact h
      · rw [loadTrips_currentPage]
  | resetAct o =>
      show 1 ≤ (resetFilters u o).1.view.currentPage
      unfold resetFilters
      rw [loadTrips_currentPage]

theorem foldl_step_page_ge_one (acts : List Action) (u : UIState)
    (h : 1 ≤ u.view.currentPage) :
    1 ≤ (acts.foldl step u).view.currentPage := by
  induction acts generalizing u with
  | nil => exact h
  | cons a as ih => exact ih (step u a) (step_page_ge_one u a h)

/-! ## Lemmas about `createBarChart` -/

theorem barRender_eq (m : ℚ) (i : BarItem) : barRender m i = some (barOf m i) := by
  unfold barRender barOf divQ
  by_cases h : 0 < m
  · rw [if_pos h, if_neg (by exact ne_of_gt h), if_pos h]
    rfl
  · rw [if_neg h, if_neg h]
    rfl

theorem renderBars_eq (m : ℚ) (l : List BarItem) :
    renderBars m l = some (l.map (barOf m)) := by
  induction l with
  | nil => rfl
  | cons i is ih =>
      unfold renderBars
      rw [barRender_eq, ih]
      rfl

theorem createBarChart_cons (d : BarItem) (ds : List BarItem) :
    createBarChart (some (d :: ds)) =
      some (.bars ((d :: ds).map (barOf (chartMaxValue d ds)))) := by
  have h : createBarChart (some (d :: ds)) =
      Option.map ChartOutput.bars (renderBars (chartMaxValue d ds) (d :: ds)) := rfl
  rw [h, renderBars_eq]
  rfl

theorem foldl_max_mem (a : ℚ) (l : List ℚ) :
    l.foldl max a = a ∨ l.foldl max a ∈ l := by
  induction l generalizing a with
  | nil => exact Or.inl rfl
  | cons x xs ih =>
      rcases ih (max a x) with h | h
      · rcases max_choice a x with he | he
        · exact Or.inl (by rw [List.foldl_cons, h, he])
        · exact Or.inr (by rw [List.foldl_cons, h, he]; exact List.mem_cons_self x xs)
      · exact Or.inr (List.mem_cons_of_mem x h)

theorem barOf_height_ge_one (m : ℚ) (i : BarItem) : 1 ≤ (barOf m i).heightPercent :=
  le_max_right _ 1

theorem barOf_height_at_max (m : ℚ) (i : BarItem) (hm : 0 < m) (hv : i.value = m) :
    (barOf m i).heightPercent = 100 := by
  unfold barOf
  dsimp only
  rw [if_pos hm, hv, div_self (ne_of_gt hm), one_mul]
  exact max_eq_left (by norm_num)

end PartA

/-! ## The claims -/

/-- C1 (counterexample): `resetFilters` has no `isLoading` guard of its own, so
invoking it while a trip-list load is in flight is not a no-op: it issues no
new network request (the guard inside `loadTrips` blocks the fetch) but it
still resets `currentPage` from 3 to 1 and clears `currentFilters`. -/
theorem resetFilters_mutates_while_loading :
    ({ view := { currentPage := 3, currentFilters := [("time_of_day", "morning")]
                 isLoading := true }
       buttons := { prevDisabled := false, nextDisabled := false }
       table := PartA.TableView.loading } : PartA.UIState).view.isLoading = true ∧
    (PartA.resetFilters
      { view := { currentPage := 3, currentFilters := [("time_of_day", "morning")]
                  isLoading := true }
        buttons := { prevDisabled := false, nextDisabled := false }
        table := PartA.TableView.loading } PartA.FetchOutcome.failure).2 = [] ∧
    (PartA.resetFilters
      { view := { currentPage := 3, currentFilters := [("time_of_day", "morning")]
                  isLoading := true }
        buttons := { prevDisabled := false, nextDisabled := false }
        table := PartA.TableView.loading } PartA.FetchOutcome.failure).1.view.currentPage = 1 ∧
    (PartA.resetFilters
      { view := { currentPage := 3, currentFilters := [("time_of_day", "morning")]
                  isLoading := true }
        buttons := { prevDisabled := false, nextDisabled := false }
        table := PartA.TableView.loading } PartA.FetchOutcome.failure).1.view.currentFilters
      = [] ∧
    (1 : Int) ≠ 3 := by
  refine ⟨rfl, rfl, rfl, rfl, by decide⟩

/-- C1 (amended): while a trip-list load is in flight (`isLoading = true`),
`nextPage`, `previousPage` and `applyFilters` are complete no-ops (no network
request, state untouched), and `resetFilters` issues no network request either
— but `resetFilters` still sets the page to 1 and clears the filters. -/
theorem nav_noop_while_loading (u : PartA.UIState) (i : PartA.FilterInputs)
    (o : PartA.FetchOutcome) (h : u.view.isLoading = true) :
    PartA.nextPage u o = (u, []) ∧
    PartA.previousPage u o = (u, []) ∧
    PartA.applyFilters i u o = (u, []) ∧
    (PartA.resetFilters u o).2 = [] := by
  refine ⟨?_, ?_, ?_, ?_⟩
  · unfold PartA.nextPage
    rw [if_neg (by rw [h]; exact Bool.false_ne_true)]
  · unfold PartA.previousPage
    rw [if_neg (by rw [h]; simp)]
  · unfold PartA.applyFilters
    rw [if_pos h]
  · have h2 : ({ u with view := { currentPage := 1, currentFilters := [], isLoading := u.view.isLoading } } : PartA.UIState).view.isLoading = true := h
    unfold PartA.resetFilters
    rw [PartA.loadTrips_guard _ o h2]

/-- C1 (witness): the amended statement at a concrete in-flight state. -/
theorem nav_noop_while_loading_witness :
    PartA.nextPage
        { view := { currentPage := 2, currentFilters := [], isLoading := true }
          buttons := { prevDisabled := false, nextDisabled := false }
          table := PartA.TableView.loading } PartA.FetchOutcome.failure =
      ({ view := { currentPage := 2, currentFilters := [], isLoading := true }
         buttons := { prevDisabled := false, nextDisabled := false }
         table := PartA.TableView.loading }, []) ∧
    PartA.previousPage
        { view := { currentPage := 2, currentFilters := [], isLoading := true }
          buttons := { prevDisabled := false, nextDisabled := false }
          table := PartA.TableView.loading } PartA.FetchOutcome.failure =
      ({ view := { currentPage := 2, currentFilters := [], isLoading := true }
         buttons := { prevDisabled := false, nextDisabled := false }
         table := PartA.TableView.loading }, []) ∧
    PartA.applyFilters { timeOfDay := "morning", speedCategory := "", minDistance := ""
                         maxDistance := "" }
        { view := { currentPage := 2, currentFilters := [], isLoading := true }
          buttons := { prevDisabled := false, nextDisabled := false }
          table := PartA.TableView.loading } PartA.FetchOutcome.failure =
      ({ view := { currentPage := 2, currentFilters := [], isLoading := true }
         buttons := { prevDisabled := false, nextDisabled := false }
         table := PartA.TableView.loading }, []) ∧
    (PartA.resetFilters
        { view := { currentPage := 2, currentFilters := [], isLoading := true }
          buttons := { prevDisabled := false, nextDisabled := false }
          table := PartA.TableView.loading } PartA.FetchOutcome.failure).2 = [] :=
  nav_noop_while_loading
    { view := { currentPage := 2, currentFilters := [], isLoading := true }
      buttons := { prevDisabled := false, nextDisabled := false }
      table := PartA.TableView.loading }
    { timeOfDay := "morning", speedCategory := "", minDistance := "", maxDistance := "" }
    PartA.FetchOutcome.failure rfl

/-- C2 (counterexample): the `catch` arm of `loadTrips` re-enables both
buttons unconditionally (`prevBtn.disabled = false; nextBtn.disabled = false`),
so after a fetch failure on page 1 the "previous" button is enabled even
though the page number is 1, and "next" is enabled although no rows were
returned. -/
theorem loadTrips_failure_buttons_enabled :
    PartA.initialUI.view.currentPage = 1 ∧
    (PartA.loadTrips PartA.initialUI PartA.FetchOutcome.failure).1.buttons.prevDisabled
      = false ∧
    (PartA.loadTrips PartA.initialUI PartA.FetchOutcome.failure).1.buttons.nextDisabled
      = false := by
  refine ⟨rfl, rfl, rfl⟩

/-- C2 (amended): after a `loadTrips` call that receives a response (a row
array, empty or not), "next" is disabled exactly when fewer than
`itemsPerPage = 50` rows were returned and "previous" is disabled exactly when
the current page is 1; after a fetch failure, however, both buttons are
re-enabled unconditionally. -/
theorem loadTrips_button_discipline (u : PartA.UIState) (trips : List PartA.Trip)
    (h : u.view.isLoading = false) (hp : 1 ≤ u.view.currentPage) :
    (PartA.loadTrips u (PartA.FetchOutcome.success trips)).1.buttons.nextDisabled
        = decide (trips.length < PartA.itemsPerPage) ∧
    (PartA.loadTrips u (PartA.FetchOutcome.success trips)).1.buttons.prevDisabled
        = decide (u.view.currentPage = 1) ∧
    (PartA.loadTrips u PartA.FetchOutcome.failure).1.buttons
        = { prevDisabled := false, nextDisabled := false } := by
  refine ⟨?_, ?_, PartA.loadTrips_failure_buttons u h⟩
  · rw [PartA.loadTrips_success_buttons u trips h]
  · rw [PartA.loadTrips_success_buttons u trips h]
    simp only [decide_eq_decide]
    omega

/-- C2 (witness): the amended statement at page 1 with 12 returned rows (the
spec's own example: 12 < 50 disables "next"). -/
theorem loadTrips_button_discipline_witness :
    (PartA.loadTrips PartA.initialUI
        (PartA.FetchOutcome.success (List.replicate 12
          { id := 1, pickup_datetime := "2016-01-01", trip_duration_minutes := 10
            trip_distance_miles := 2, avg_speed_mph := 12, passenger_count := 1
            time_of_day := some "morning"
            speed_category := some "slow" }))).1.buttons.nextDisabled
      = decide ((List.replicate 12
          ({ id := 1, pickup_datetime := "2016-01-01", trip_duration_minutes := 10
             trip_distance_miles := 2, avg_speed_mph := 12, passenger_count := 1
             time_of_day := some "morning"
             speed_category := some "slow" } : PartA.Trip)).length < PartA.itemsPerPage) ∧
    (PartA.loadTrips PartA.initialUI
        (PartA.FetchOutcome.success (List.replicate 12
          { id := 1, pickup_datetime := "2016-01-01", trip_duration_minutes := 10
            trip_distance_miles := 2, avg_speed_mph := 12, passenger_count := 1
            time_of_day := some "morning"
            speed_category := some "slow" }))).1.buttons.prevDisabled
      = decide (PartA.initialUI.view.currentPage = 1) ∧
    (PartA.loadTrips PartA.initialUI PartA.FetchOutcome.failure).1.buttons
      = { prevDisabled := false, nextDisabled := false } :=
  loadTrips_button_discipline PartA.initialUI
    (List.replicate 12
      { id := 1, pickup_datetime := "2016-01-01", trip_duration_minutes := 10
        trip_distance_miles := 2, avg_speed_mph := 12, passenger_count := 1
        time_of_day := some "morning", speed_category := some "slow" })
    rfl (by decide)

/-- C3 (confirmed): whenever `loadTrips` actually runs (the guard is down),
it issues exactly one trip fetch whose query parameters are
`limit = 50`, `offset = (currentPage − 1) * 50`, followed by the active
filters. -/
theorem loadTrips_offset_params (u : PartA.UIState) (o : PartA.FetchOutcome)
    (h : u.view.isLoading = false) :
    (PartA.loadTrips u o).2 =
      [("limit", "50") :: ("offset", toString ((u.view.currentPage - 1) * 50)) ::
        u.view.currentFilters] := by
  rw [PartA.loadTrips_requests u o h]
  rfl

/-- C3 (witness): page 1 → offset 0, the spec's example, plus a page-4 state
→ offset 150. -/
theorem loadTrips_offset_params_witness :
    (PartA.loadTrips PartA.initialUI PartA.FetchOutcome.failure).2 =
      [("limit", "50") ::
        ("offset", toString ((PartA.initialUI.view.currentPage - 1) * 50)) ::
        PartA.initialUI.view.currentFilters] ∧
    (PartA.loadTrips
        { view := { currentPage := 4, currentFilters := [("min_distance", "2")]
                    isLoading := false }
          buttons := { prevDisabled := false, nextDisabled := false }
          table := PartA.TableView.loading } PartA.FetchOutcome.failure).2 =
      [[("limit", "50"), ("offset", "150"), ("min_distance", "2")]] :=
  ⟨loadTrips_offset_params PartA.initialUI PartA.FetchOutcome.failure rfl,
    loadTrips_offset_params
      { view := { currentPage := 4, currentFilters := [("min_distance", "2")]
                  isLoading := false }
        buttons := { prevDisabled := false, nextDisabled := false }
        table := PartA.TableView.loading } PartA.FetchOutcome.failure rfl⟩

/-- C10 (confirmed): starting from the initial view state, every sequence of
handler invocations (initial load, next/previous page, apply/reset filters,
with arbitrary fetch outcomes) keeps `currentPage ≥ 1`, hence the computed
offset `(currentPage − 1) * itemsPerPage` is never negative. -/
theorem currentPage_invariant (acts : List PartA.Action) :
    1 ≤ (PartA.run acts).view.currentPage ∧
    0 ≤ ((PartA.run acts).view.currentPage - 1) * (PartA.itemsPerPage : Int) := by
  have h : 1 ≤ (PartA.run acts).view.currentPage :=
    PartA.foldl_step_page_ge_one acts PartA.initialUI (le_refl 1)
  exact ⟨h, mul_nonneg (by omega) (by norm_num)⟩

/-- C7 (confirmed): when no load is in flight, applying filters sets the page
to 1 and re-issues the trip fetch with exactly the non-empty input values as
query parameters (in source order after `limit`/`offset`); resetting filters
clears all filter parameters, sets the page to 1, and reloads. -/
theorem applyFilters_resets_page (i : PartA.FilterInputs) (u : PartA.UIState)
    (o : PartA.FetchOutcome) (h : u.view.isLoading = false) :
    (PartA.applyFilters i u o).1.view.currentPage = 1 ∧
    (PartA.applyFilters i u o).1.view.currentFilters = PartA.buildFilters i ∧
    (PartA.applyFilters i u o).2 = [("limit", "50") :: ("offset", "0") :: PartA.buildFilters i] ∧
    PartA.buildFilters i =
      ([("time_of_day", i.timeOfDay), ("speed_category", i.speedCategory),
        ("min_distance", i.minDistance), ("max_distance", i.maxDistance)].filter
          fun p => p.2 ≠ "") ∧
    (PartA.resetFilters u o).1.view.currentPage = 1 ∧
    (PartA.resetFilters u o).1.view.currentFilters = [] ∧
    (PartA.resetFilters u o).2 = [[("limit", "50"), ("offset", "0")]] := by
  have hg : ¬ u.view.isLoading = true := by rw [h]; exact Bool.false_ne_true
  have happly : PartA.applyFilters i u o =
      PartA.loadTrips
        { u with view := { currentPage := 1, currentFilters := PartA.buildFilters i, isLoading := u.view.isLoading } } o := by
    unfold PartA.applyFilters
    rw [if_neg hg]
  refine ⟨?_, ?_, ?_, ?_, ?_, ?_, ?_⟩
  · rw [happly, PartA.loadTrips_currentPage]
  · rw [happly, PartA.loadTrips_currentFilters]
  · rw [happly, PartA.loadTrips_requests
      { u with view := { currentPage := 1, currentFilters := PartA.buildFilters i, isLoading := u.view.isLoading } } o h]
    rfl
  · unfold PartA.buildFilters
    by_cases h1 : i.timeOfDay = "" <;> by_cases h2 : i.speedCategory = "" <;>
      by_cases h3 : i.minDistance = "" <;> by_cases h4 : i.maxDistance = "" <;>
      simp [h1, h2, h3, h4]
  · show (PartA.loadTrips _ o).1.view.currentPage = 1
    rw [PartA.loadTrips_currentPage]
  · show (PartA.loadTrips _ o).1.view.currentFilters = []
    rw [PartA.loadTrips_currentFilters]
  · show (PartA.loadTrips _ o).2 = _
    rw [PartA.loadTrips_requests
      { u with view := { currentPage := 1, currentFilters := [], isLoading := u.view.isLoading } } o h]
    rfl

/-- C7 (witness): the amended-free statement at a concrete idle state with one
empty and three non-empty filter inputs. -/
theorem applyFilters_resets_page_witness :
    (PartA.applyFilters
        { timeOfDay := "morning", speedCategory := "", minDistance := "1", maxDistance := "5" }
        PartA.initialUI (PartA.FetchOutcome.success [])).1.view.currentPage = 1 ∧
    (PartA.applyFilters
        { timeOfDay := "morning", speedCategory := "", minDistance := "1", maxDistance := "5" }
        PartA.initialUI (PartA.FetchOutcome.success [])).1.view.currentFilters =
      PartA.buildFilters
        { timeOfDay := "morning", speedCategory := "", minDistance := "1", maxDistance := "5" } ∧
    (PartA.applyFilters
        { timeOfDay := "morning", speedCategory := "", minDistance := "1", maxDistance := "5" }
        PartA.initialUI (PartA.FetchOutcome.success [])).2 =
      [("limit", "50") :: ("offset", "0") ::
        PartA.buildFilters
          { timeOfDay := "morning", speedCategory := "", minDistance := "1", maxDistance := "5" }] ∧
    PartA.buildFilters
        { timeOfDay := "morning", speedCategory := "", minDistance := "1", maxDistance := "5" } =
      ([("time_of_day", "morning"), ("speed_category", ""), ("min_distance", "1"),
        ("max_distance", "5")].filter fun p => p.2 ≠ "") ∧
    (PartA.resetFilters PartA.initialUI (PartA.FetchOutcome.success [])).1.view.currentPage = 1 ∧
    (PartA.resetFilters PartA.initialUI
        (PartA.FetchOutcome.success [])).1.view.currentFilters = [] ∧
    (PartA.resetFilters PartA.initialUI (PartA.FetchOutcome.success [])).2 =
      [[("limit", "50"), ("offset", "0")]] :=
  applyFilters_resets_page
    { timeOfDay := "morning", speedCategory := "", minDistance := "1", maxDistance := "5" }
    PartA.initialUI (PartA.FetchOutcome.success []) rfl

/-- C9 (confirmed): the label humanizer is idempotent — applying
`formatLabel` to its own output returns that output unchanged. -/
theorem formatLabel_idempotent (l : List Nat) :
    PartA.formatLabel (PartA.formatLabel l) = PartA.formatLabel l := by
  have h : PartA.replaceUnderscores (PartA.formatLabel l) = PartA.formatLabel l :=
    PartA.replaceUnderscores_eq_self _ (PartA.formatLabel_ne_underscore l)
  show PartA.capitalizeFrom false (PartA.replaceUnderscores (PartA.formatLabel l))
      = PartA.formatLabel l
  rw [h]
  exact PartA.capitalizeFrom_idem false (PartA.replaceUnderscores l)

/-- C8 (confirmed): an absent or empty series renders the "No data available"
placeholder, and the height normalization never divides by zero on any input
(the renderer, built on division that rejects a zero divisor, always
produces a result). -/
theorem createBarChart_empty_safe :
    PartA.createBarChart none = some PartA.ChartOutput.noData ∧
    PartA.createBarChart (some []) = some PartA.ChartOutput.noData ∧
    ∀ data : Option (List PartA.BarItem), (PartA.createBarChart data).isSome = true := by
  refine ⟨rfl, rfl, ?_⟩
  intro data
  match data with
  | none => rfl
  | some [] => rfl
  | some (d :: ds) =>
      rw [PartA.createBarChart_cons]
      rfl

/-- C4 (counterexample): on the non-empty all-zero series `[("a", 0)]` the
maximum value is 0, the `maxValue > 0` guard sends every height to the 1%
floor, and the bar carrying the maximum value renders at 1%, not 100%. -/
theorem createBarChart_zero_series_not_full :
    PartA.createBarChart (some [{ label := [97], value := 0 }]) =
      some (PartA.ChartOutput.bars
        [{ heightPercent := 1, labelText := [65], valueNum := 0 }]) ∧
    (1 : ℚ) ≠ 100 := by
  constructor
  · rw [PartA.createBarChart_cons]
    decide
  · norm_num

/-- C4 (amended): for every non-empty series, every bar's rendered height is
at least the 1% floor (this part holds unconditionally, all-zero series
included); and whenever the series' maximum value is positive, the bar for the
maximum value is rendered at 100% height. -/
theorem createBarChart_tallest_full (d : PartA.BarItem) (ds : List PartA.BarItem) :
    (PartA.createBarChart (some (d :: ds)) =
      some (PartA.ChartOutput.bars ((d :: ds).map (PartA.barOf (PartA.chartMaxValue d ds))))) ∧
    (∀ b ∈ (d :: ds).map (PartA.barOf (PartA.chartMaxValue d ds)), 1 ≤ b.heightPercent) ∧
    (0 < PartA.chartMaxValue d ds →
      ∃ b ∈ (d :: ds).map (PartA.barOf (PartA.chartMaxValue d ds)), b.heightPercent = 100) := by
  refine ⟨PartA.createBarChart_cons d ds, ?_, ?_⟩
  · intro b hb
    obtain ⟨x, _, rfl⟩ := List.mem_map.mp hb
    exact PartA.barOf_height_ge_one _ x
  · intro hm
    rcases PartA.foldl_max_mem d.value (ds.map (·.value)) with h | h
    · exact ⟨PartA.barOf (PartA.chartMaxValue d ds) d,
        List.mem_map_of_mem _ (List.mem_cons_self d ds),
        PartA.barOf_height_at_max _ d hm h.symm⟩
    · obtain ⟨x, hx, hv⟩ := List.mem_map.mp h
      exact ⟨PartA.barOf (PartA.chartMaxValue d ds) x,
        List.mem_map_of_mem _ (List.mem_cons_of_mem d hx),
        PartA.barOf_height_at_max _ x hm hv⟩

/-- C4 (witness): the amended statement on the concrete series
`[("a", 2), ("b", 4)]`, discharging the positive-maximum hypothesis of the
100% conjunct at maximum 4. -/
theorem createBarChart_tallest_full_witness :
    PartA.createBarChart (some [{ label := [97], value := 2 }, { label := [98], value := 4 }]) =
      some (PartA.ChartOutput.bars
        ([{ label := [97], value := 2 }, { label := [98], value := 4 }].map
          (PartA.barOf (PartA.chartMaxValue { label := [97], value := 2 }
            [{ label := [98], value := 4 }])))) ∧
    (∀ b ∈ [({ label := [97], value := 2 } : PartA.BarItem),
        { label := [98], value := 4 }].map
          (PartA.barOf (PartA.chartMaxValue { label := [97], value := 2 }
            [{ label := [98], value := 4 }])), 1 ≤ b.heightPercent) ∧
    (∃ b ∈ [({ label := [97], value := 2 } : PartA.BarItem),
        { label := [98], value := 4 }].map
          (PartA.barOf (PartA.chartMaxValue { label := [97], value := 2 }
            [{ label := [98], value := 4 }])), b.heightPercent = 100) :=
  have h := createBarChart_tallest_full { label := [97], value := 2 }
    [{ label := [98], value := 4 }]
  ⟨h.1, h.2.1, h.2.2 (by norm_num [PartA.chartMaxValue])⟩

/-- C5 (counterexample): `fetchData` alerts only on a thrown network/non-JSON
error; a parsed payload with `success: false` falls through the
`data && data.success` guard silently. Both render nothing, but only the
network failure surfaces an error, so the two are not handled identically. -/
theorem loadStats_success_false_silent :
    ScriptJs.loadStats (ScriptJs.FetchResult.ok
        { success := false
          stats := { total_trips := 0, avg_duration_minutes := 0, avg_speed_kmh := 0
                     most_common_passenger_count := 0 } }) =
      { rendered := none, alerted := false } ∧
    ScriptJs.loadStats ScriptJs.FetchResult.networkError =
      { rendered := none, alerted := true } ∧
    ({ rendered := none, alerted := false } : ScriptJs.Render ScriptJs.StatsData) ≠
      { rendered := none, alerted := true } := by
  refine ⟨rfl, rfl, ?_⟩
  intro hc
  exact Bool.false_ne_true (congrArg ScriptJs.Render.alerted hc)

/-- C5 (amended): for every loader, both a `success: false` payload and a
network/non-JSON failure render nothing into the target elements; but an
error is surfaced (the `fetchData` alert) only for the network failure, while
`success: false` is silently ignored. -/
theorem loaders_render_nothing_on_failure (r : ScriptJs.StatsResponse)
    (hr : r.success = false) (p : ScriptJs.HourlyResponse) (hp : p.success = false) :
    (ScriptJs.loadStats (ScriptJs.FetchResult.ok r)).rendered = none ∧
    (ScriptJs.loadStats (ScriptJs.FetchResult.ok r)).alerted = false ∧
    (ScriptJs.loadStats ScriptJs.FetchResult.networkError).rendered = none ∧
    (ScriptJs.loadStats ScriptJs.FetchResult.networkError).alerted = true ∧
    (ScriptJs.loadHourlyChart (ScriptJs.FetchResult.ok p)).rendered = none ∧
    (ScriptJs.loadHourlyChart (ScriptJs.FetchResult.ok p)).alerted = false ∧
    (ScriptJs.loadHourlyChart ScriptJs.FetchResult.networkError).rendered = none ∧
    (ScriptJs.loadHourlyChart ScriptJs.FetchResult.networkError).alerted = true := by
  refine ⟨?_, ?_, rfl, rfl, ?_, ?_, rfl, rfl⟩ <;>
    simp [ScriptJs.loadStats, ScriptJs.loadHourlyChart, ScriptJs.fetchData, hr, hp]

/-- C5 (witness): the amended statement at concrete `success: false`
payloads. -/
theorem loaders_render_nothing_on_failure_witness :
    (ScriptJs.loadStats (ScriptJs.FetchResult.ok
        { success := false
          stats := { total_trips := 7, avg_duration_minutes := 1, avg_speed_kmh := 2
                     most_common_passenger_count := 1 } })).rendered = none ∧
    (ScriptJs.loadStats (ScriptJs.FetchResult.ok
        { success := false
          stats := { total_trips := 7, avg_duration_minutes := 1, avg_speed_kmh := 2
                     most_common_passenger_count := 1 } })).alerted = false ∧
    (ScriptJs.loadStats ScriptJs.FetchResult.networkError).rendered = none ∧
    (ScriptJs.loadStats ScriptJs.FetchResult.networkError).alerted = true ∧
    (ScriptJs.loadHourlyChart (ScriptJs.FetchResult.ok
        { success := false, hours := [{ pickup_hour := 8, trip_count := 10 }] })).rendered
      = none ∧
    (ScriptJs.loadHourlyChart (ScriptJs.FetchResult.ok
        { success := false, hours := [{ pickup_hour := 8, trip_count := 10 }] })).alerted
      = false ∧
    (ScriptJs.loadHourlyChart ScriptJs.FetchResult.networkError).rendered = none ∧
    (ScriptJs.loadHourlyChart ScriptJs.FetchResult.networkError).alerted = true :=
  loaders_render_nothing_on_failure
    { success := false
      stats := { total_trips := 7, avg_duration_minutes := 1, avg_speed_kmh := 2
                 most_common_passenger_count := 1 } } rfl
    { success := false, hours := [{ pickup_hour := 8, trip_count := 10 }] } rfl

/-- C6 (confirmed): the dashboard loads issued concurrently by
`initDashboard`'s `Promise.all` are isolated: replacing the `/stats` outcome
by a network failure leaves every other widget's render unchanged (and a
successful hourly payload still renders its chart), because each loader
catches its own fetch failure inside `fetchData`; likewise in the other
script, a failed time chart still lets the speed chart render. -/
theorem initDashboard_failure_isolated (o : ScriptJs.DashboardOutcomes)
    (hr : ScriptJs.HourlyResponse) (h : o.hourly = ScriptJs.FetchResult.ok hr)
    (hs : hr.success = true) :
    (ScriptJs.initDashboard { o with stats := ScriptJs.FetchResult.networkError }).hourly =
      (ScriptJs.initDashboard o).hourly ∧
    (ScriptJs.initDashboard { o with stats := ScriptJs.FetchResult.networkError }).daily =
      (ScriptJs.initDashboard o).daily ∧
    (ScriptJs.initDashboard { o with stats := ScriptJs.FetchResult.networkError }).speed =
      (ScriptJs.initDashboard o).speed ∧
    (ScriptJs.initDashboard { o with stats := ScriptJs.FetchResult.networkError }).duration =
      (ScriptJs.initDashboard o).duration ∧
    (ScriptJs.initDashboard { o with stats := ScriptJs.FetchResult.networkError }).trips =
      (ScriptJs.initDashboard o).trips ∧
    (ScriptJs.initDashboard { o with stats := ScriptJs.FetchResult.networkError }).insights =
      (ScriptJs.initDashboard o).insights ∧
    (ScriptJs.initDashboard { o with stats := ScriptJs.FetchResult.networkError }).stats.rendered
      = none ∧
    (ScriptJs.initDashboard { o with stats := ScriptJs.FetchResult.networkError }).hourly.rendered
      = some (ScriptJs.hourlyChartData hr.hours) ∧
    ∀ s, PartA.loadCharts false none s = some (some PartA.WidgetView.failed, PartA.loadSpeedChartA s) := by
  refine ⟨rfl, rfl, rfl, rfl, rfl, rfl, rfl, ?_, fun s => rfl⟩
  show (ScriptJs.loadHourlyChart o.hourly).rendered = _
  rw [h]
  simp [ScriptJs.loadHourlyChart, ScriptJs.fetchData, hs]

/-- C6 (witness): the isolation statement at a concrete outcome vector in
which every fetch succeeds, then `/stats` is failed. -/
theorem initDashboard_failure_isolated_witness :
    (ScriptJs.initDashboard
      { stats := ScriptJs.FetchResult.networkError
        hourly := ScriptJs.FetchResult.ok
          { success := true, hours := [{ pickup_hour := 18, trip_count := 5 }] }
        daily := ScriptJs.FetchResult.ok { success := true, stats := [] }
        speed := ScriptJs.FetchResult.ok { success := true, speeds := [] }
        duration := ScriptJs.FetchResult.ok { success := true, distribution := [] }
        trips := ScriptJs.FetchResult.ok { success := true, trips := [] }
        insightsHourly := ScriptJs.FetchResult.networkError
        insightsSpeed := ScriptJs.FetchResult.networkError
        insightsDaily := ScriptJs.FetchResult.networkError }).hourly =
      (ScriptJs.initDashboard
        { stats := ScriptJs.FetchResult.ok
            { success := true
              stats := { total_trips := 1, avg_duration_minutes := 1, avg_speed_kmh := 1
                         most_common_passenger_count := 1 } }
          hourly := ScriptJs.FetchResult.ok
            { success := true, hours := [{ pickup_hour := 18, trip_count := 5 }] }
          daily := ScriptJs.FetchResult.ok { success := true, stats := [] }
          speed := ScriptJs.FetchResult.ok { success := true, speeds := [] }
          duration := ScriptJs.FetchResult.ok { success := true, distribution := [] }
          trips := ScriptJs.FetchResult.ok { success := true, trips := [] }
          insightsHourly := ScriptJs.FetchResult.networkError
          insightsSpeed := ScriptJs.FetchResult.networkError
          insightsDaily := ScriptJs.FetchResult.networkError }).hourly ∧
    (ScriptJs.initDashboard
      { stats := ScriptJs.FetchResult.networkError
        hourly := ScriptJs.FetchResult.ok
          { success := true, hours := [{ pickup_hour := 18, trip_count := 5 }] }
        daily := ScriptJs.FetchResult.ok { success := true, stats := [] }
        speed := ScriptJs.FetchResult.ok { success := true, speeds := [] }
        duration := ScriptJs.FetchResult.ok { success := true, distribution := [] }
        trips := ScriptJs.FetchResult.ok { success := true, trips := [] }
        insightsHourly := ScriptJs.FetchResult.networkError
        insightsSpeed := ScriptJs.FetchResult.networkError
        insightsDaily := ScriptJs.FetchResult.networkError }).hourly.rendered =
      some (ScriptJs.hourlyChartData [{ pickup_hour := 18, trip_count := 5 }]) :=
  have h := initDashboard_failure_isolated
    { stats := ScriptJs.FetchResult.ok
        { success := true
          stats := { total_trips := 1, avg_duration_minutes := 1, avg_speed_kmh := 1
                     most_common_passenger_count := 1 } }
      hourly := ScriptJs.FetchResult.ok
        { success := true, hours := [{ pickup_hour := 18, trip_count := 5 }] }
      daily := ScriptJs.FetchResult.ok { success := true, stats := [] }
      speed := ScriptJs.FetchResult.ok { success := true, speeds := [] }
      duration := ScriptJs.FetchResult.ok { success := true, distribution := [] }
      trips := ScriptJs.FetchResult.ok { success := true, trips := [] }
      insightsHourly := ScriptJs.FetchResult.networkError
      insightsSpeed := ScriptJs.FetchResult.networkError
      insightsDaily := ScriptJs.FetchResult.networkError }
    { success := true, hours := [{ pickup_hour := 18, trip_count := 5 }] } rfl rfl
  ⟨h.1, h.2.2.2.2.2.2.2.1⟩
